import Mathlib

/-!
Verification development for the BlueKing-IAM SaaS backend core
(policy value model, diff engine, group authorization workflow,
policy operation service, resource id-name cache).

Python classes are embedded as Lean structures; Django model tables
become explicit lists of rows; `transaction.atomic` blocks become a
rollback discipline (on error the pre-transaction state is returned);
raised exceptions become `Except`/`Option Err` results; external
collaborators (backend policy store, redis, task runner) are supplied
as explicit environment records with injectable failure.
-/

set_option maxRecDepth 4096

namespace BkIam

/-! ### Policy value model

The `PolicyBean` family lives in `backend/biz/policy.py`, which is not
part of the sampled sources; the structures below are modelled from the
spec's data model (§3) and the operations from §4.1/§4.2. -/

/-- Modelled from the spec: one node of a concrete resource path, a chain
element `\x7bsystem_id, type, id, name\x7d`. -/
structure PathNode where
  system_id : String
  type : String
  id : String
  name : String
deriving DecidableEq, Repr

/-- Modelled from the spec: a concrete resource instance, i.e. one
hierarchical resource path. -/
structure InstanceBean where
  type : String
  path : List PathNode
deriving DecidableEq, Repr

/-- Modelled from the spec: one attribute name/value constraint. -/
structure AttributeBean where
  id : String
  value : String
deriving DecidableEq, Repr

/-- Modelled from the spec: a condition is a disjunct holding concrete
instances and/or attribute constraints; empty on both sides means
"any instance". -/
structure ConditionBean where
  id : String
  instances : List InstanceBean
  attributes : List AttributeBean
deriving DecidableEq, Repr

/-- Modelled from the spec: a related resource type of a policy with its
condition set. -/
structure RelatedResourceBean where
  system_id : String
  type : String
  condition : List ConditionBean
deriving DecidableEq, Repr

/-- Modelled from the spec: a policy: one action, its related resource
types, an absolute expiration, and the backend identifier
(0 = unassigned). -/
structure PolicyBean where
  action_id : String
  related_resource_types : List RelatedResourceBean
  expired_at : Nat
  policy_id : Nat
deriving DecidableEq, Repr

/-- The permanent-expiration sentinel `PERMANENT_SECONDS` from
`backend/common/time.py` (2100-01-01 00:00:00 UTC). -/
def PERMANENT_SECONDS : Nat := 4102444800

/-- Modelled from the spec: `set_expired_at` overwrites the expiration
uniformly. -/
def PolicyBean.set_expired_at (p : PolicyBean) (t : Nat) : PolicyBean :=
  { p with expired_at := t }

/-- Modelled from the spec: `is_expired(now)` is true when
`expired_at <= now`. -/
def PolicyBean.is_expired (p : PolicyBean) (now : Nat) : Bool :=
  p.expired_at ≤ now

/-- Modelled from the spec: `count_instance()` is the total number of
concrete instances across all conditions of a related resource type. -/
def RelatedResourceBean.count_instance (rrt : RelatedResourceBean) : Nat :=
  (rrt.condition.map (fun c => c.instances.length)).sum

/-! ### Policy collection / diff engine (spec §4.2) -/

/-- A collection of policies for one system
(`PolicyBeanList` in `backend/biz/policy.py`). -/
structure PolicyBeanList where
  system_id : String
  policies : List PolicyBean
deriving DecidableEq, Repr

/-- Modelled from the spec: `get(action_id)` looks a policy up by its
action id. -/
def PolicyBeanList.get (pl : PolicyBeanList) (action_id : String) : Option PolicyBean :=
  pl.policies.find? (fun p => p.action_id == action_id)

/-- All concrete instances appearing in a condition list. -/
def conditionInstances (cs : List ConditionBean) : List InstanceBean :=
  cs.flatMap (fun c => c.instances)

/-- All attribute constraints appearing in a condition list. -/
def conditionAttributes (cs : List ConditionBean) : List AttributeBean :=
  cs.flatMap (fun c => c.attributes)

/-- Modelled from the spec: policy-level difference — for each related
resource type of `self`, remove every instance and attribute value that
also appears in the matching related resource type of `other`; conditions
emptied by the removal are dropped. -/
def PolicyBean.subPolicy (self other : PolicyBean) : PolicyBean :=
  { self with related_resource_types := self.related_resource_types.map (fun rrt =>
      match other.related_resource_types.find? (fun o =>
          o.system_id == rrt.system_id && o.type == rrt.type) with
      | none => rrt
      | some o =>
        let oInsts := conditionInstances o.condition
        let oAttrs := conditionAttributes o.condition
        let stripped := rrt.condition.map (fun c =>
          { c with
            instances := c.instances.filter (fun i => !(oInsts.contains i)),
            attributes := c.attributes.filter (fun a => !(oAttrs.contains a)) })
        let kept := stripped.filter (fun c => !(c.instances.isEmpty && c.attributes.isEmpty))
        { rrt with condition := kept }) }

/-- A policy is dropped from a diff result when, after removal, it has
zero conditions remaining across all its related resource types. -/
def PolicyBean.isEmptyAfterSub (p : PolicyBean) : Bool :=
  p.related_resource_types.all (fun rrt => rrt.condition.isEmpty)

/-- Modelled from the spec: `sub(other)` keeps each policy whose action
`other` lacks unchanged, computes the instance/attribute-level remainder
otherwise, and drops policies emptied by the removal. -/
def PolicyBeanList.sub (self other : PolicyBeanList) : PolicyBeanList :=
  ⟨self.system_id,
   self.policies.foldr (fun p acc =>
     match other.get p.action_id with
     | none => p :: acc
     | some op =>
       let q := p.subPolicy op
       if q.isEmptyAfterSub then acc else q :: acc) []⟩

/-- Instance/attribute-level containment of one policy in another with
the same action (the "already fully granted" relation): every related
resource type of `p` has a matching related resource type in `op`, and
every instance and attribute value of every condition of `p` appears
among the matching type's condition values. -/
def containedIn (p op : PolicyBean) : Bool :=
  p.related_resource_types.all (fun rrt =>
    match op.related_resource_types.find? (fun o =>
        o.system_id == rrt.system_id && o.type == rrt.type) with
    | none => false
    | some o =>
      rrt.condition.all (fun c =>
        c.instances.all (fun i => (conditionInstances o.condition).contains i) &&
        c.attributes.all (fun a => (conditionAttributes o.condition).contains a)))

/-! ### Errors

Raised exceptions are embedded structurally: each `error_codes.*.format`
site becomes a constructor carrying the data interpolated into the
message. -/

inductive Err where
  /-- `VALIDATE_ERROR`: some requested template is mid-update. -/
  | templateUpdating : Err
  /-- `VALIDATE_ERROR`: an authorization is already in flight for the
  group against a requested template or custom system. -/
  | authInFlight : Err
  /-- `VALIDATE_ERROR`: the action already has a policy for the subject
  (add-only custom grant). -/
  | actionExists (system_id action_id : String) : Err
  /-- wrapped `VALIDATE_ERROR` raised by `_gen_grant_lock` for a failed
  resource-name or scope check, naming system and template. -/
  | templateCheckFailed (system_id : String) (template_id : Nat) : Err
  /-- name-check failure: an instance node carries a stale name. -/
  | nameMismatch (instance_id : String) : Err
  /-- scope violation for an action. -/
  | scopeViolation (system_id action_id : String) : Err
  /-- template member check: template missing or action set mismatch. -/
  | templateActionsMismatch (template_id : Nat) : Err
  /-- `INVALID_ARGS`: the application contains no change. -/
  | noChange : Err
  /-- `VALIDATE_ERROR`: instance count over the per-request ceiling,
  naming the action and resource type. -/
  | instanceLimitExceeded (action_id rtype : String) (limit : Nat) : Err
  /-- template authorization row missing (`DoesNotExist`). -/
  | templateAuthNotFound (template_id : Nat) : Err
  /-- injected storage failure inside a transaction. -/
  | storage (op : String) : Err
  /-- remote/backend failure. -/
  | remote (msg : String) : Err
  /-- group-deletion guard: the group is being authorized. -/
  | groupAuthorizing : Err
deriving DecidableEq, Repr

/-! ### Resource-name check (spec §4.2 `check_resource_name`) -/

/-- The resource provider's canonical names, keyed by
(system_id, type, id); `none` means the id is not resolvable. -/
def CanonNames := List ((String × String × String) × String)

/-- A path node fails the name check when its id resolves to a canonical
name different from the one it carries; unresolvable ids are tolerated. -/
def nodeBadName (canon : CanonNames) (n : PathNode) : Bool :=
  match List.lookup (n.system_id, n.type, n.id) canon with
  | some cname => cname != n.name
  | none => false

/-- Modelled from the spec: `check_resource_name` fails with a validation
error on the first instance node whose carried name does not match the
canonical name resolved from the resource provider. -/
def PolicyBeanList.check_resource_name (canon : CanonNames) (pl : PolicyBeanList) :
    Except Err Unit :=
  match pl.policies.findSome? (fun p =>
      p.related_resource_types.findSome? (fun rrt =>
        rrt.condition.findSome? (fun c =>
          c.instances.findSome? (fun i => i.path.find? (nodeBadName canon))))) with
  | some n => .error (.nameMismatch n.id)
  | none => .ok ()

/-! ### Instance-count ceiling
(`trans/application.py:_check_application_policy_instance_count_limit`) -/

/-- Default of `APPLY_POLICY_ADD_INSTANCES_LIMIT` in `config/default.py`. -/
def APPLY_POLICY_ADD_INSTANCES_LIMIT : Nat := 20

/-- `_check_application_policy_instance_count_limit`: walk every policy
and every related resource type; fail with a validation error naming the
action and the resource type as soon as `count_instance()` exceeds the
ceiling. -/
def check_application_policy_instance_count_limit (limit : Nat) (pl : PolicyBeanList) :
    Except Err Unit :=
  match pl.policies.findSome? (fun p =>
      (p.related_resource_types.find? (fun rrt => limit < rrt.count_instance)).map
        (fun rrt => (p.action_id, rrt.type))) with
  | some (aid, ty) => .error (.instanceLimitExceeded aid ty limit)
  | none => .ok ()

/-! ### Role scope checker (spec §4.3)

`RoleAuthorizationScopeChecker` lives in `backend/biz/role.py`, outside
the sampled sources. -/

/-- Modelled from the spec: one allowed action of a role's authorization
scope, with the allowed resource conditions (empty condition list =
unrestricted). -/
structure ScopeAction where
  system_id : String
  action_id : String
  related_resource_types : List RelatedResourceBean
deriving DecidableEq, Repr

/-- Modelled from the spec: a role's authorization scope. -/
structure RoleScope where
  actions : List ScopeAction
deriving DecidableEq, Repr

/-- Modelled from the spec: a policy is within scope when its action is
allowed for the system and every condition's instances and attribute
values are contained in the allowed condition of the matching related
resource type (an empty allowed condition list is unrestricted). -/
def policyInScope (scope : RoleScope) (system_id : String) (p : PolicyBean) : Bool :=
  match scope.actions.find? (fun a =>
      a.system_id == system_id && a.action_id == p.action_id) with
  | none => false
  | some a =>
    p.related_resource_types.all (fun rrt =>
      match a.related_resource_types.find? (fun o =>
          o.system_id == rrt.system_id && o.type == rrt.type) with
      | none => false
      | some o =>
        o.condition.isEmpty ||
        rrt.condition.all (fun c =>
          c.instances.all (fun i => (conditionInstances o.condition).contains i) &&
          c.attributes.all (fun av => (conditionAttributes o.condition).contains av)))

/-- Modelled from the spec: `check_policies` fails with a scope-violation
error on the first policy outside the role's bounds. -/
def RoleScope.check_policies (scope : RoleScope) (system_id : String)
    (policies : List PolicyBean) : Except Err Unit :=
  match policies.find? (fun p => !(policyInScope scope system_id p)) with
  | some p => .error (.scopeViolation system_id p.action_id)
  | none => .ok ()

/-! ### Template member check (spec §4.4)

`TemplateCheckBiz.check_add_member` lives in `backend/biz/template.py`,
outside the sampled sources. -/

/-- Modelled from the spec: `check_add_member` verifies the requested
action set exactly matches the template's defined action set (structural
set equality, not subset). -/
def check_add_member (templates : List (Nat × List String)) (template_id : Nat)
    (action_ids : List String) : Except Err Unit :=
  match List.lookup template_id templates with
  | none => .error (.templateActionsMismatch template_id)
  | some defined =>
    if action_ids.all (fun a => defined.contains a) &&
       defined.all (fun a => action_ids.contains a) then
      .ok ()
    else
      .error (.templateActionsMismatch template_id)

/-! ### Policy query store

`PolicyQueryService` lives in `backend/service/policy/query.py`, outside
the sampled sources; the saas policy table it reads is modelled as a
list of (system_id, subject, policy) entries. -/

/-- A subject: `\x7btype, id\x7d`. -/
structure Subject where
  type : String
  id : String
deriving DecidableEq, Repr

/-- The subject built for a group: `Subject(type=GROUP, id=str(group_id))`. -/
def groupSubject (group_id : Nat) : Subject :=
  ⟨"group", toString group_id⟩

/-- Python's `int()` on the decimal subject id. -/
def strToNat (s : String) : Nat :=
  s.data.foldl (fun n c => n * 10 + (c.toNat - 48)) 0

/-- The saas policy store rows consulted by queries
(system_id, owning subject, policy). -/
def PolicyDb := List (String × Subject × PolicyBean)

/-- Modelled from the spec: `list_by_subject` returns the subject's
custom policies for one system. -/
def list_by_subject (db : PolicyDb) (system_id : String) (subject : Subject) :
    List PolicyBean :=
  (db.filter (fun e => e.1 == system_id && e.2.1 == subject)).map (fun e => e.2.2)

/-- Modelled from the spec: `new_policy_list_by_subject` wraps the
subject's policies in a collection supporting `get`. -/
def new_policy_list_by_subject (db : PolicyDb) (system_id : String) (subject : Subject) :
    PolicyBeanList :=
  ⟨system_id, list_by_subject db system_id subject⟩

/-! ### Group authorization workflow (`backend/biz/group.py`) -/

/-- `GroupTemplateGrantBean`: one requested permission source
(template_id = 0 means custom permissions for system_id). -/
structure GroupTemplateGrantBean where
  system_id : String
  template_id : Nat
  policies : List PolicyBean
deriving DecidableEq, Repr

/-- A `GroupAuthorizeLock` row: group, permission source, batch
correlation key, and the snapshot of policies to grant. -/
structure GroupAuthorizeLockRow where
  group_id : Nat
  template_id : Nat
  system_id : String
  key : String
  data : List PolicyBean
deriving DecidableEq, Repr

/-- A `TaskDetail` row for the asynchronous runner. -/
structure TaskRow where
  id : Nat
  ttype : String
  subject : Subject
  key : String
deriving DecidableEq, Repr

/-- The stored state touched by the grant workflow:
`PermTemplatePreUpdateLock` rows (template ids), `GroupAuthorizeLock`
rows, `TaskDetail` rows, and the ids handed to `TaskFactory().delay`. -/
structure GrantState where
  preUpdateLocks : List Nat
  authorizeLocks : List GroupAuthorizeLockRow
  tasks : List TaskRow
  nextTaskId : Nat
  dispatched : List Nat
deriving DecidableEq, Repr

/-- The collaborators of the grant workflow: the policy store for the
add-only check, template definitions for `check_add_member`, canonical
resource names, the generated batch uuid, and injectable storage
failures for the two writes inside the commit transaction. -/
structure GrantEnv where
  policyDb : PolicyDb
  templates : List (Nat × List String)
  canon : CanonNames
  uuid : String
  bulkCreateFails : Bool
  taskCreateFails : Bool

/-- The non-zero template ids of a request (`_check_before_grant`). -/
def requestedTemplateIds (templates : List GroupTemplateGrantBean) : List Nat :=
  (templates.filter (fun t => t.template_id != 0)).map (fun t => t.template_id)

/-- The systems of the custom (template_id = 0) parts of a request. -/
def requestedCustomSystemIds (templates : List GroupTemplateGrantBean) : List String :=
  (templates.filter (fun t => t.template_id == 0)).map (fun t => t.system_id)

/-- `_check_before_grant`: fail when a requested template is mid-update,
or when a `GroupAuthorizeLock` already exists for this group against a
requested template or a requested (system, custom) pair. -/
def check_before_grant (st : GrantState) (group_id : Nat)
    (templates : List GroupTemplateGrantBean) : Except Err Unit :=
  let template_ids := requestedTemplateIds templates
  let custom_action_system_ids := requestedCustomSystemIds templates
  if st.preUpdateLocks.any (fun t => template_ids.contains t) then
    .error .templateUpdating
  else if st.authorizeLocks.any (fun l =>
      l.group_id == group_id &&
      (template_ids.contains l.template_id ||
       (l.template_id == 0 && custom_action_system_ids.contains l.system_id))) then
    .error .authInFlight
  else
    .ok ()

/-- `_valid_grant_actions_not_exists`: fail on the first requested action
that already has a policy for the subject in the system. -/
def valid_grant_actions_not_exists (db : PolicyDb) (subject : Subject)
    (system_id : String) (action_ids : List String) : Except Err Unit :=
  let policy_list := new_policy_list_by_subject db system_id subject
  match action_ids.find? (fun a => (policy_list.get a).isSome) with
  | some a => .error (.actionExists system_id a)
  | none => .ok ()

/-- The permission-source check opening `_gen_grant_lock`: the
template-consistency check for a template source, the add-only check for
a custom source. -/
def grant_source_check (env : GrantEnv) (subject : Subject)
    (template : GroupTemplateGrantBean) : Except Err Unit :=
  let action_ids := template.policies.map (fun p => p.action_id)
  if template.template_id != 0 then
    check_add_member env.templates template.template_id action_ids
  else
    valid_grant_actions_not_exists env.policyDb subject template.system_id action_ids

/-- The try-block of `_gen_grant_lock`: the resource-name check on the
requested policies followed by the role scope check. -/
def grant_inner_checks (env : GrantEnv) (role : RoleScope)
    (template : GroupTemplateGrantBean) : Except Err Unit :=
  match PolicyBeanList.check_resource_name env.canon
      ⟨template.system_id, template.policies⟩ with
  | .error e => .error e
  | .ok () => RoleScope.check_policies role template.system_id template.policies

/-- `_gen_grant_lock`: run the permission-source check, then the
try-block checks (their failure is wrapped into a validation error
naming system and template), and only then normalize every policy's
expiration to `PERMANENT_SECONDS` and build the lock snapshot. -/
def gen_grant_lock (env : GrantEnv) (role : RoleScope) (subject : Subject)
    (template : GroupTemplateGrantBean) (uuid : String) :
    Except Err GroupAuthorizeLockRow :=
  match grant_source_check env subject template with
  | .error e => .error e
  | .ok () =>
    match grant_inner_checks env role template with
    | .error _ => .error (.templateCheckFailed template.system_id template.template_id)
    | .ok () =>
      .ok { template_id := template.template_id,
            group_id := strToNat subject.id,
            system_id := template.system_id,
            key := uuid,
            data := template.policies.map (fun p => p.set_expired_at PERMANENT_SECONDS) }

/-- The per-template loop of `grant`: locks are generated sequentially
and the first failure aborts the whole batch. -/
def gen_grant_locks (env : GrantEnv) (role : RoleScope) (subject : Subject)
    (uuid : String) : List GroupTemplateGrantBean →
    Except Err (List GroupAuthorizeLockRow)
  | [] => .ok []
  | t :: ts =>
    match gen_grant_lock env role subject t uuid with
    | .error e => .error e
    | .ok l =>
      match gen_grant_locks env role subject uuid ts with
      | .error e => .error e
      | .ok ls => .ok (l :: ls)

/-- The `transaction.atomic` block of `grant`: bulk-create the lock rows
and create the single task record; either write may fail (injected), and
a failure aborts the transaction so that nothing is committed. -/
def grant_commit (env : GrantEnv) (st : GrantState)
    (locks : List GroupAuthorizeLockRow) (subject : Subject) :
    Except Err (GrantState × Nat) :=
  if env.bulkCreateFails then
    .error (.storage "bulk_create")
  else
    let st1 := { st with authorizeLocks := st.authorizeLocks ++ locks }
    if env.taskCreateFails then
      .error (.storage "task_create")
    else
      let task_id := st1.nextTaskId
      .ok ({ st1 with
             tasks := st1.tasks ++
               [{ id := task_id, ttype := "group_authorization",
                  subject := subject, key := env.uuid }],
             nextTaskId := task_id + 1 }, task_id)

/-- `GroupBiz.grant`: pre-check, per-template lock generation, one
transactional commit of all locks plus the task record, then the task
dispatch; any raised error leaves the stored state untouched. -/
def grant (env : GrantEnv) (st : GrantState) (role : RoleScope) (group_id : Nat)
    (templates : List GroupTemplateGrantBean) : GrantState × Option Err :=
  match check_before_grant st group_id templates with
  | .error e => (st, some e)
  | .ok () =>
    let subject := groupSubject group_id
    match gen_grant_locks env role subject env.uuid templates with
    | .error e => (st, some e)
    | .ok locks =>
      match grant_commit env st locks subject with
      | .error e => (st, some e)
      | .ok (st1, task_id) =>
        ({ st1 with dispatched := st1.dispatched ++ [task_id] }, none)

/-- `GroupCheckBiz.check_grant_policies_without_update`, embedded exactly
as written: the `policies` parameter is immediately shadowed by the
subject's already stored policies, so the loop compares the stored
policies against themselves. -/
def check_grant_policies_without_update (db : PolicyDb) (group_id : Nat)
    (system_id : String) (policies : List PolicyBean) : Except Err Unit :=
  let subject := groupSubject group_id
  let policies := list_by_subject db system_id subject
  let policy_list : PolicyBeanList := ⟨system_id, policies⟩
  match policies.find? (fun p => (policy_list.get p.action_id).isSome) with
  | some p => .error (.actionExists system_id p.action_id)
  | none => .ok ()

/-! ### Diff-then-name-check paths
(`biz/group.py:check_update_policies_resource_name` and
`trans/application.py:_gen_need_apply_policy_list`) -/

/-- A `PermTemplatePolicyAuthorized` row: the actions a template has
authorized for a subject. -/
structure TemplateAuthorizedRow where
  subject : Subject
  template_id : Nat
  actions : List PolicyBean
deriving DecidableEq, Repr

/-- `get_by_subject_template` over the template-authorization table. -/
def get_by_subject_template (db : List TemplateAuthorizedRow) (subject : Subject)
    (template_id : Nat) : Option TemplateAuthorizedRow :=
  db.find? (fun r => r.subject == subject && r.template_id == template_id)

/-- `GroupBiz.check_update_policies_resource_name`: load the already
authorized policies (custom policies when template_id = 0, the
template's authorized actions otherwise), subtract them from the request
to keep only the added part, and run the resource-name check on that
diff alone. A missing template-authorization row raises
(`DoesNotExist`). -/
def check_update_policies_resource_name (canon : CanonNames) (db : PolicyDb)
    (templateAuthDb : List TemplateAuthorizedRow) (system_id : String)
    (template_id : Nat) (policies : List PolicyBean) (subject : Subject) :
    Except Err Unit :=
  let queried : Except Err (List PolicyBean) :=
    if template_id == 0 then
      .ok (list_by_subject db system_id subject)
    else
      match get_by_subject_template templateAuthDb subject template_id with
      | some row => .ok row.actions
      | none => .error (.templateAuthNotFound template_id)
  match queried with
  | .error e => .error e
  | .ok old_policies =>
    let added_policy_list :=
      PolicyBeanList.sub ⟨system_id, policies⟩ ⟨system_id, old_policies⟩
    added_policy_list.check_resource_name canon

/-- The subject built for an applicant user. -/
def userSubject (applicant : String) : Subject :=
  ⟨"user", applicant⟩

/-- `ApplicationDataTrans._gen_need_apply_policy_list`: subtract the
applicant's existing policies from the request, name-check the diff
only, then rebuild the application policies (keep whole policies whose
old counterpart is missing or expired, keep the diffed remainder with
the old expiration otherwise, skip unchanged ones), and reject a
zero-delta application. -/
def gen_need_apply_policy_list (canon : CanonNames) (db : PolicyDb) (now : Nat)
    (applicant : String) (system_id : String) (policy_list : PolicyBeanList) :
    Except Err PolicyBeanList :=
  let old_policy_list := new_policy_list_by_subject db system_id (userSubject applicant)
  let diff_policy_list := policy_list.sub old_policy_list
  match diff_policy_list.check_resource_name canon with
  | .error e => .error e
  | .ok () =>
    let application_policies := policy_list.policies.foldr (fun p acc =>
      match old_policy_list.get p.action_id with
      | none => p :: acc
      | some old_policy =>
        if old_policy.is_expired now then
          p :: acc
        else
          match diff_policy_list.get p.action_id with
          | none => acc
          | some diff_policy => diff_policy.set_expired_at old_policy.expired_at :: acc) []
    if application_policies.isEmpty then
      .error .noChange
    else
      .ok ⟨system_id, application_policies⟩

/-! ### Policy operation service
(`backend/service/policy/operation.py`) -/

/-- A saas mirror `Policy` row (`backend/apps/policy/models.py`):
primary key, owning (system, subject), action, backend policy id
(0 = unassigned) and the resource-condition payload. -/
structure PolicyRow where
  id : Nat
  system_id : String
  subject_type : String
  subject_id : String
  action_id : String
  policy_id : Nat
  resources : List RelatedResourceBean
deriving DecidableEq, Repr

/-- The mirror store: the rows plus the next primary key the storage
will assign. -/
structure MirrorState where
  nextPk : Nat
  rows : List PolicyRow
deriving DecidableEq, Repr

/-- The external collaborators of `alter`: the outcome of the backend
`alter_policies` call and the backend's policy list
(action_id -> backend policy id) as re-fetched by
`new_backend_policy_list_by_subject`. -/
structure AlterEnv where
  backendResult : Except String Unit
  backendPolicies : List (String × Nat)

/-- The observable operations committed by one `alter` call, in order. -/
inductive AlterEvent where
  | dbCreate (n : Nat)
  | dbUpdate (n : Nat)
  | dbDelete (n : Nat)
  | backendAlter (create update : List PolicyBean) (delete_ids : List Nat)
  | syncPolicyId
deriving DecidableEq, Repr

/-- `Policy.to_db_model`: the mirror row built for a new policy (the
primary key is assigned by the storage at insert). -/
def toDbModel (pk : Nat) (system_id : String) (subject : Subject) (p : PolicyBean) :
    PolicyRow :=
  { id := pk, system_id := system_id, subject_type := subject.type,
    subject_id := subject.id, action_id := p.action_id,
    policy_id := p.policy_id, resources := p.related_resource_types }

/-- `_create_db_policies`: bulk-insert one mirror row per policy. -/
def create_db_policies (system_id : String) (subject : Subject)
    (policies : List PolicyBean) (st : MirrorState) : MirrorState :=
  { nextPk := st.nextPk + policies.length,
    rows := st.rows ++ (List.range policies.length).zipWith
      (fun i p => toDbModel (st.nextPk + i) system_id subject p) policies }

/-- `_update_db_policies`: for each stored row of the subject whose
backend policy id is among the updated ones, patch its resource payload
from the update with the same action (rows are patched by primary key in
the source; identity of the row plays that role here). -/
def update_db_policies (system_id : String) (subject : Subject)
    (policies : List PolicyBean) (st : MirrorState) : MirrorState :=
  let ids := policies.map (fun p => p.policy_id)
  { st with rows := st.rows.map (fun r =>
      if r.system_id == system_id && r.subject_type == subject.type &&
         r.subject_id == subject.id && ids.contains r.policy_id then
        match policies.find? (fun p => p.action_id == r.action_id) with
        | some up => { r with resources := up.related_resource_types }
        | none => r
      else r) }

/-- `_delete_db_policies`: delete the subject's rows whose backend
policy id is listed. -/
def delete_db_policies (system_id : String) (subject : Subject)
    (policy_ids : List Nat) (st : MirrorState) : MirrorState :=
  { st with rows := st.rows.filter (fun r =>
      !(r.system_id == system_id && r.subject_type == subject.type &&
        r.subject_id == subject.id && policy_ids.contains r.policy_id)) }

/-- `_sync_db_policy_id`: fetch the subject's rows still holding the
placeholder policy_id 0; if there are none return immediately, otherwise
re-fetch the backend policy list and bulk-patch every such row whose
action has a backend policy with the backend-assigned id. -/
def sync_db_policy_id (env : AlterEnv) (system_id : String) (subject : Subject)
    (st : MirrorState) : MirrorState :=
  let db_policies := st.rows.filter (fun r =>
    r.system_id == system_id && r.subject_type == subject.type &&
    r.subject_id == subject.id && r.policy_id == 0)
  if db_policies.isEmpty then
    st
  else
    { st with rows := st.rows.map (fun r =>
        if r.system_id == system_id && r.subject_type == subject.type &&
           r.subject_id == subject.id && r.policy_id == 0 then
          match List.lookup r.action_id env.backendPolicies with
          | some pid => { r with policy_id := pid }
          | none => r
        else r) }

/-- `PolicyOperationService.alter`: inside one transaction, create then
update then delete mirror rows (each step skipped when its set is
empty), then make the single backend `alter_policies` call when any set
is non-empty; a backend failure rolls the whole transaction back. After
a committed transaction, the policy-id reconciliation runs exactly when
the create set was non-empty. Returns the committed mirror state, the
committed events in order, and the raised error if any. -/
def alter (env : AlterEnv) (st : MirrorState) (system_id : String) (subject : Subject)
    (create_policies update_policies : List PolicyBean) (delete_policy_ids : List Nat) :
    MirrorState × List AlterEvent × Option Err :=
  let st1 := if create_policies.isEmpty then st
             else create_db_policies system_id subject create_policies st
  let ev1 : List AlterEvent := if create_policies.isEmpty then []
             else [.dbCreate create_policies.length]
  let st2 := if update_policies.isEmpty then st1
             else update_db_policies system_id subject update_policies st1
  let ev2 : List AlterEvent := if update_policies.isEmpty then []
             else [.dbUpdate update_policies.length]
  let st3 := if delete_policy_ids.isEmpty then st2
             else delete_db_policies system_id subject delete_policy_ids st2
  let ev3 : List AlterEvent := if delete_policy_ids.isEmpty then []
             else [.dbDelete delete_policy_ids.length]
  if create_policies.isEmpty && update_policies.isEmpty && delete_policy_ids.isEmpty then
    (st, [], none)
  else
    match env.backendResult with
    | .error msg => (st, [], some (.remote msg))
    | .ok () =>
      let evs := ev1 ++ ev2 ++ ev3 ++
        [.backendAlter create_policies update_policies delete_policy_ids]
      if create_policies.isEmpty then
        (st3, evs, none)
      else
        (sync_db_policy_id env system_id subject st3, evs ++ [.syncPolicyId], none)

/-! ### Resource id-name cache (`backend/service/resource.py`) -/

/-- A Redis failure (`redis.exceptions.RedisError`). -/
inductive RedisErr where
  | redisError
deriving DecidableEq, Repr

/-- The redis keyspace used by the cache (key -> stored name). -/
structure CacheState where
  entries : List (String × String)
deriving DecidableEq, Repr

/-- The cache key `bk_iam:rp:id_name:\x7bsystem\x7d:\x7btype\x7d:\x7bid\x7d`. -/
def cacheKey (system_id resource_type_id resource_id : String) : String :=
  "bk_iam:rp:id_name:" ++ system_id ++ ":" ++ resource_type_id ++ ":" ++ resource_id

/-- Overwrite one key in the keyspace. -/
def setEntry (entries : List (String × String)) (k v : String) :
    List (String × String) :=
  if entries.any (fun e => e.1 == k) then
    entries.map (fun e => if e.1 == k then (k, v) else e)
  else
    entries ++ [(k, v)]

/-- The redis pipeline executing the SET commands; it either applies all
of them or raises a `RedisError`. -/
def redisPipelineSet (fails : Bool) (kvs : List (String × String))
    (st : CacheState) : Except RedisErr CacheState :=
  if fails then .error .redisError
  else .ok ⟨kvs.foldl (fun es kv => setEntry es kv.1 kv.2) st.entries⟩

/-- The redis pipeline executing the GET commands; it either returns the
ordered results or raises a `RedisError`. -/
def redisPipelineGet (fails : Bool) (keys : List String) (st : CacheState) :
    Except RedisErr (List (Option String)) :=
  if fails then .error .redisError
  else .ok (keys.map (fun k => List.lookup k st.entries))

/-- `ResourceIDNameCache.set`: pipeline all id -> name entries into
redis; a `RedisError` is caught and logged, the call returns normally
and nothing is cached. -/
def ResourceIDNameCache.set (fails : Bool) (system_id resource_type_id : String)
    (id_name_map : List (String × String)) (st : CacheState) : CacheState :=
  match redisPipelineSet fails
      (id_name_map.map (fun e => (cacheKey system_id resource_type_id e.1, e.2))) st with
  | .error _ => st
  | .ok st1 => st1

/-- `ResourceIDNameCache.get`: pipeline the GETs for the requested ids;
a `RedisError` is caught and logged and the result degrades to a list of
`none` values, so every requested id maps to a cache miss. -/
def ResourceIDNameCache.get (fails : Bool) (system_id resource_type_id : String)
    (ids : List String) (st : CacheState) : List (String × Option String) :=
  let result := match redisPipelineGet fails
      (ids.map (cacheKey system_id resource_type_id)) st with
    | .error _ => ids.map (fun _ => none)
    | .ok r => r
  ids.zip result

/-! ### Group deletion (`GroupBiz.delete`) -/

/-- A group row. -/
structure GroupRow where
  id : Nat
  name : String
deriving DecidableEq, Repr

/-- The stored state touched by `GroupBiz.delete`: the authorize locks
consulted by the guard and the five tables cleaned by the transaction
(role-group relations as (role_id, group_id) pairs, template
authorizations, custom policy rows, group attributes as
(group_id, key, value) triples, and the groups themselves). -/
structure GroupDeleteState where
  authorizeLocks : List GroupAuthorizeLockRow
  roleRelations : List (Nat × Nat)
  templateAuths : List TemplateAuthorizedRow
  policies : List PolicyRow
  groupAttributes : List (Nat × String × String)
  groups : List GroupRow
deriving DecidableEq, Repr

/-- `GroupBiz.delete`: refuse when any `GroupAuthorizeLock` row exists
for the group; otherwise delete the role relation, the template
authorizations, the custom policies, the group attributes and the group
row inside one transaction (`deleteFails` injects a failure of any of
those writes, which rolls the whole transaction back). -/
def GroupBiz.delete (deleteFails : Bool) (st : GroupDeleteState) (group_id : Nat) :
    GroupDeleteState × Option Err :=
  if st.authorizeLocks.any (fun l => l.group_id == group_id) then
    (st, some .groupAuthorizing)
  else
    let subject := groupSubject group_id
    if deleteFails then
      (st, some (.storage "delete"))
    else
      ({ st with
         roleRelations := st.roleRelations.filter (fun rr => rr.2 != group_id),
         templateAuths := st.templateAuths.filter (fun t => t.subject != subject),
         policies := st.policies.filter (fun p =>
           !(p.subject_type == subject.type && p.subject_id == subject.id)),
         groupAttributes := st.groupAttributes.filter (fun a => a.1 != group_id),
         groups := st.groups.filter (fun g => g.id != group_id) }, none)

/-! ### Concrete inputs used by witnesses -/

/-- A canonical-name table where instance X of `host` resolves to
"real". -/
def canonX : CanonNames := [(("s", "host", "X"), "real")]

/-- Instance X carrying a stale display name. -/
def instXStale : InstanceBean := ⟨"host", [⟨"s", "host", "X", "stale"⟩]⟩

/-- A requested policy: action `view` over instance X (stale name). -/
def reqViewX : PolicyBean := ⟨"view", [⟨"s", "host", [⟨"c1", [instXStale], []⟩]⟩], 0, 0⟩

/-- The already stored policy: `view` over the same instance X. -/
def oldViewX : PolicyBean :=
  ⟨"view", [⟨"s", "host", [⟨"c0", [instXStale], []⟩]⟩], PERMANENT_SECONDS, 1⟩

/-- The policy store holding group 7's `view` policy. -/
def dbViewX : PolicyDb := [("s", groupSubject 7, oldViewX)]

/-! ## Theorems -/

/-- One-step unfolding of the diff over a non-empty collection. -/
theorem sub_policies_cons (system_id : String) (p : PolicyBean) (ps : List PolicyBean)
    (other : PolicyBeanList) :
    (PolicyBeanList.sub ⟨system_id, p :: ps⟩ other).policies =
      match other.get p.action_id with
      | none => p :: (PolicyBeanList.sub ⟨system_id, ps⟩ other).policies
      | some op =>
        if (p.subPolicy op).isEmptyAfterSub then
          (PolicyBeanList.sub ⟨system_id, ps⟩ other).policies
        else p.subPolicy op :: (PolicyBeanList.sub ⟨system_id, ps⟩ other).policies := rfl

/-- A policy fully contained in its counterpart is emptied by the
instance/attribute-level removal. -/
theorem containedIn_subPolicy_empty (p op : PolicyBean) (h : containedIn p op = true) :
    (p.subPolicy op).isEmptyAfterSub = true := by
  unfold containedIn at h
  rw [List.all_eq_true] at h
  unfold PolicyBean.subPolicy PolicyBean.isEmptyAfterSub
  rw [List.all_eq_true]
  intro rrt' hrrt'
  simp only [List.mem_map] at hrrt'
  obtain ⟨rrt, hrrt, hf⟩ := hrrt'
  have hc := h rrt hrrt
  rcases hfind : op.related_resource_types.find? (fun o =>
      o.system_id == rrt.system_id && o.type == rrt.type) with _ | o
  · rw [hfind] at hc
    cases hc
  · rw [hfind] at hc
    rw [List.all_eq_true] at hc
    rw [hfind] at hf
    subst hf
    simp only
    rw [List.isEmpty_iff, List.filter_eq_nil_iff]
    intro x hx
    simp only [List.mem_map] at hx
    obtain ⟨cond, hcond, hg⟩ := hx
    subst hg
    have hcc := hc cond hcond
    rw [Bool.and_eq_true] at hcc
    obtain ⟨hi, ha⟩ := hcc
    have hinst : cond.instances.filter
        (fun i => !((conditionInstances o.condition).contains i)) = [] := by
      rw [List.filter_eq_nil_iff]
      intro i hi2
      have := List.all_eq_true.mp hi i hi2
      simpa using this
    have hattr : cond.attributes.filter
        (fun a => !((conditionAttributes o.condition).contains a)) = [] := by
      rw [List.filter_eq_nil_iff]
      intro a ha2
      have := List.all_eq_true.mp ha a ha2
      simpa using this
    simp only [hinst, hattr]
    simp

/-- A request whose every policy is fully contained in the
already-authorized collection diffs to the empty collection. -/
theorem sub_contained_nil (system_id : String) (policies old : List PolicyBean)
    (h : ∀ p ∈ policies, ∃ op,
      PolicyBeanList.get ⟨system_id, old⟩ p.action_id = some op ∧
      containedIn p op = true) :
    (PolicyBeanList.sub ⟨system_id, policies⟩ ⟨system_id, old⟩).policies = [] := by
  induction policies with
  | nil => rfl
  | cons p ps ih =>
    rw [sub_policies_cons]
    obtain ⟨op, hget, hcont⟩ := h p (List.mem_cons_self p ps)
    rw [hget]
    simp only [containedIn_subPolicy_empty p op hcont, if_true]
    exact ih (fun q hq => h q (List.mem_cons_of_mem p hq))

/-- Creating no mirror rows leaves the mirror unchanged. -/
theorem create_db_policies_nil (system_id : String) (subject : Subject)
    (st : MirrorState) : create_db_policies system_id subject [] st = st := by
  cases st
  simp [create_db_policies]

/-- Updating no mirror rows leaves the mirror unchanged. -/
theorem update_db_policies_nil (system_id : String) (subject : Subject)
    (st : MirrorState) : update_db_policies system_id subject [] st = st := by
  cases st
  simp [update_db_policies]

/-- Deleting no mirror rows leaves the mirror unchanged. -/
theorem delete_db_policies_nil (system_id : String) (subject : Subject)
    (st : MirrorState) : delete_db_policies system_id subject [] st = st := by
  cases st
  simp [delete_db_policies]

/-- The mirror state committed by a successful `alter` call, with the
committed event trace: create, then update, then delete, then the single
backend call, then — exactly when the create set is non-empty — the
policy-id reconciliation. -/
theorem alter_success_eq (env : AlterEnv) (st : MirrorState) (system_id : String)
    (subject : Subject) (c u : List PolicyBean) (d : List Nat)
    (hb : env.backendResult = .ok ()) :
    alter env st system_id subject c u d =
      (let st3 := delete_db_policies system_id subject d
          (update_db_policies system_id subject u
            (create_db_policies system_id subject c st))
       ((if c.isEmpty then st3 else sync_db_policy_id env system_id subject st3),
        (if c.isEmpty && u.isEmpty && d.isEmpty then ([] : List AlterEvent) else
          (if c.isEmpty then [] else [.dbCreate c.length]) ++
          (if u.isEmpty then [] else [.dbUpdate u.length]) ++
          (if d.isEmpty then [] else [.dbDelete d.length]) ++
          [.backendAlter c u d] ++
          (if c.isEmpty then [] else [.syncPolicyId])),
        none)) := by
  by_cases hc : c.isEmpty = true <;> by_cases hu : u.isEmpty = true <;>
    by_cases hd : d.isEmpty = true <;>
    simp [alter, hb, hc, hu, hd, create_db_policies_nil, update_db_policies_nil,
      delete_db_policies_nil] <;>
    simp_all [create_db_policies_nil, update_db_policies_nil, delete_db_policies_nil]

/-- A failed backend call rolls the whole `alter` transaction back: the
mirror is unchanged and nothing is committed. -/
theorem alter_backend_error (env : AlterEnv) (st : MirrorState) (system_id : String)
    (subject : Subject) (c u : List PolicyBean) (d : List Nat) (msg : String)
    (hb : env.backendResult = .error msg)
    (hne : (c.isEmpty && u.isEmpty && d.isEmpty) = false) :
    alter env st system_id subject c u d = (st, [], some (.remote msg)) := by
  simp [alter, hb, hne]

/-- An `alter` call with all three sets empty commits nothing and calls
nothing. -/
theorem alter_all_empty (env : AlterEnv) (st : MirrorState) (system_id : String)
    (subject : Subject) (c u : List PolicyBean) (d : List Nat)
    (hall : (c.isEmpty && u.isEmpty && d.isEmpty) = true) :
    alter env st system_id subject c u d = (st, [], none) := by
  simp [alter, hall]

/-- Row-level characterization of `_sync_db_policy_id`: every row of the
(system, subject) with placeholder policy_id 0 whose action has a
backend policy is patched to the backend id; every other row is
untouched (also covering the early return when no row qualifies). -/
theorem sync_db_policy_id_rows (env : AlterEnv) (system_id : String)
    (subject : Subject) (st : MirrorState) :
    (sync_db_policy_id env system_id subject st).rows = st.rows.map (fun r =>
      if r.system_id == system_id && r.subject_type == subject.type &&
         r.subject_id == subject.id && r.policy_id == 0 then
        match List.lookup r.action_id env.backendPolicies with
        | some pid => { r with policy_id := pid }
        | none => r
      else r) := by
  unfold sync_db_policy_id
  rcases h : (st.rows.filter (fun r =>
      r.system_id == system_id && r.subject_type == subject.type &&
      r.subject_id == subject.id && r.policy_id == 0)).isEmpty with _ | _
  · simp [h]
  · simp only [h, if_true]
    have hall : ∀ r ∈ st.rows, (r.system_id == system_id &&
        r.subject_type == subject.type && r.subject_id == subject.id &&
        r.policy_id == 0) = false := by
      intro r hr
      have h2 := List.filter_eq_nil_iff.mp (List.isEmpty_iff.mp h) r hr
      simpa using h2
    have := List.map_congr_left (l := st.rows)
      (f := fun r => if r.system_id == system_id && r.subject_type == subject.type &&
          r.subject_id == subject.id && r.policy_id == 0 then
            match List.lookup r.action_id env.backendPolicies with
            | some pid => { r with policy_id := pid }
            | none => r
          else r)
      (g := fun r => r) (fun r hr => by simp [hall r hr])
    rw [this, List.map_id']

/-- Every lock produced by `_gen_grant_lock` carries the batch uuid as
its key. -/
theorem gen_grant_lock_key (env : GrantEnv) (role : RoleScope) (subject : Subject)
    (t : GroupTemplateGrantBean) (uuid : String) (l : GroupAuthorizeLockRow)
    (h : gen_grant_lock env role subject t uuid = .ok l) : l.key = uuid := by
  unfold gen_grant_lock at h
  rcases hsrc : grant_source_check env subject t with e | u
  · rw [hsrc] at h
    exact absurd h (by simp)
  · cases u
    rw [hsrc] at h
    rcases hin : grant_inner_checks env role t with e' | u'
    · rw [hin] at h
      exact absurd h (by simp)
    · cases u'
      rw [hin] at h
      cases h
      rfl

/-- Every lock of a successfully generated batch carries the batch uuid
as its key. -/
theorem gen_grant_locks_key (env : GrantEnv) (role : RoleScope) (subject : Subject)
    (uuid : String) (ts : List GroupTemplateGrantBean)
    (ls : List GroupAuthorizeLockRow)
    (h : gen_grant_locks env role subject uuid ts = .ok ls) :
    ∀ l ∈ ls, l.key = uuid := by
  induction ts generalizing ls with
  | nil =>
    cases h
    intro l hl
    cases hl
  | cons t ts ih =>
    unfold gen_grant_locks at h
    rcases h1 : gen_grant_lock env role subject t uuid with e | l1
    · rw [h1] at h
      exact absurd h (by simp)
    · rw [h1] at h
      rcases h2 : gen_grant_locks env role subject uuid ts with e | ls1
      · rw [h2] at h
        exact absurd h (by simp)
      · rw [h2] at h
        cases h
        intro l hl
        rcases hl with _ | hl
        · exact gen_grant_lock_key env role subject t uuid l1 h1
        · exact ih ls1 h2 l (by assumption)

/-- Claim C7: `_gen_grant_lock` succeeds exactly when the
permission-source check (template consistency for a template source,
add-only for a custom source) and the try-block checks (resource name,
then role scope) all pass on the policies as submitted, and the lock it
then builds snapshots the submitted policies with every expiration
normalized to the permanent sentinel; in particular every policy of the
snapshot carries `PERMANENT_SECONDS`. -/
theorem C7_lock_snapshot_permanent_after_checks (env : GrantEnv) (role : RoleScope)
    (subject : Subject) (template : GroupTemplateGrantBean) (uuid : String) :
    (∀ lock, gen_grant_lock env role subject template uuid = .ok lock ↔
      (grant_source_check env subject template = .ok () ∧
       PolicyBeanList.check_resource_name env.canon
         ⟨template.system_id, template.policies⟩ = .ok () ∧
       RoleScope.check_policies role template.system_id template.policies = .ok () ∧
       lock = { template_id := template.template_id,
                group_id := strToNat subject.id,
                system_id := template.system_id,
                key := uuid,
                data := template.policies.map
                  (fun p => p.set_expired_at PERMANENT_SECONDS) })) ∧
    (∀ lock, gen_grant_lock env role subject template uuid = .ok lock →
      ∀ p ∈ lock.data, p.expired_at = PERMANENT_SECONDS) := by
  have hmain : ∀ lock, gen_grant_lock env role subject template uuid = .ok lock ↔
      (grant_source_check env subject template = .ok () ∧
       PolicyBeanList.check_resource_name env.canon
         ⟨template.system_id, template.policies⟩ = .ok () ∧
       RoleScope.check_policies role template.system_id template.policies = .ok () ∧
       lock = { template_id := template.template_id,
                group_id := strToNat subject.id,
                system_id := template.system_id,
                key := uuid,
                data := template.policies.map
                  (fun p => p.set_expired_at PERMANENT_SECONDS) }) := by
    intro lock
    unfold gen_grant_lock grant_inner_checks
    rcases hsrc : grant_source_check env subject template with e | u
    · simp
    · cases u
      rcases hname : PolicyBeanList.check_resource_name env.canon
          ⟨template.system_id, template.policies⟩ with e' | u'
      · simp
      · cases u'
        rcases hscope : RoleScope.check_policies role template.system_id
            template.policies with e'' | u''
        · simp
        · cases u''
          simp [eq_comm]
  refine ⟨hmain, ?_⟩
  intro lock h p hp
  have := ((hmain lock).mp h).2.2.2
  subst this
  simp only [List.mem_map] at hp
  obtain ⟨q, -, hq⟩ := hp
  rw [← hq]
  rfl

/-- Witness for C7: a concrete custom grant of action `view` passes the
checks and its lock snapshot carries the permanent expiration, via the
main theorem at a concrete input. -/
theorem C7_lock_snapshot_permanent_after_checks_witness :
    gen_grant_lock ⟨[], [], [], "u", false, false⟩ ⟨[⟨"s", "view", []⟩]⟩
        (groupSubject 7) ⟨"s", 0, [⟨"view", [], 0, 0⟩]⟩ "u" =
      .ok ⟨7, 0, "s", "u", [⟨"view", [], PERMANENT_SECONDS, 0⟩]⟩ ∧
    ∀ p ∈ (⟨7, 0, "s", "u", [⟨"view", [], PERMANENT_SECONDS, 0⟩]⟩ :
        GroupAuthorizeLockRow).data, p.expired_at = PERMANENT_SECONDS := by
  have h1 : gen_grant_lock ⟨[], [], [], "u", false, false⟩ ⟨[⟨"s", "view", []⟩]⟩
      (groupSubject 7) ⟨"s", 0, [⟨"view", [], 0, 0⟩]⟩ "u" =
      .ok ⟨7, 0, "s", "u", [⟨"view", [], PERMANENT_SECONDS, 0⟩]⟩ := by rfl
  exact ⟨h1, (C7_lock_snapshot_permanent_after_checks
    ⟨[], [], [], "u", false, false⟩ ⟨[⟨"s", "view", []⟩]⟩ (groupSubject 7)
    ⟨"s", 0, [⟨"view", [], 0, 0⟩]⟩ "u").2 _ h1⟩

/-- Claim C1: a group grant fails with an error — leaving the stored
state, hence the lock table and the task table, untouched — whenever a
`GroupAuthorizeLock` row already exists for the group against a
requested template id, or with template id 0 against the system of a
requested custom grant; when the only existing locks of the group are
for other templates and other systems (and no requested template is
mid-update), the pre-check passes. -/
theorem C1_grant_lock_mutual_exclusion (env : GrantEnv) (st : GrantState)
    (role : RoleScope) (group_id : Nat) (templates : List GroupTemplateGrantBean) :
    ((∃ t ∈ templates, ∃ l ∈ st.authorizeLocks, l.group_id = group_id ∧
        ((t.template_id ≠ 0 ∧ l.template_id = t.template_id) ∨
         (t.template_id = 0 ∧ l.template_id = 0 ∧ l.system_id = t.system_id))) →
      (grant env st role group_id templates).1 = st ∧
      (grant env st role group_id templates).2.isSome = true) ∧
    ((∀ tid ∈ st.preUpdateLocks, tid ∉ requestedTemplateIds templates) →
     (∀ l ∈ st.authorizeLocks, l.group_id = group_id →
        l.template_id ∉ requestedTemplateIds templates ∧
        ¬(l.template_id = 0 ∧ l.system_id ∈ requestedCustomSystemIds templates)) →
      check_before_grant st group_id templates = .ok ()) := by
  constructor
  · rintro ⟨t, ht, l, hl, hgid, hcase⟩
    have hanyP : ∃ x ∈ st.authorizeLocks, x.group_id = group_id ∧
        (x.template_id ∈ requestedTemplateIds templates ∨
         x.template_id = 0 ∧ x.system_id ∈ requestedCustomSystemIds templates) := by
      refine ⟨l, hl, hgid, ?_⟩
      rcases hcase with ⟨hne, heq⟩ | ⟨hz, hlz, hsys⟩
      · exact Or.inl (heq ▸
          List.mem_map_of_mem _ (List.mem_filter.2 ⟨ht, by simpa using hne⟩))
      · exact Or.inr ⟨hlz, hsys ▸
          List.mem_map_of_mem _ (List.mem_filter.2 ⟨ht, by simpa using hz⟩)⟩
    have hfail : ∃ e, check_before_grant st group_id templates = .error e := by
      by_cases hpreP : ∃ x ∈ st.preUpdateLocks, x ∈ requestedTemplateIds templates
      · exact ⟨.templateUpdating, by simp [check_before_grant, hpreP]⟩
      · exact ⟨.authInFlight, by simp [check_before_grant, hpreP, hanyP]⟩
    obtain ⟨e, he⟩ := hfail
    simp [grant, he]
  · intro hpre hlocks
    have h1P : ¬ ∃ x ∈ st.preUpdateLocks, x ∈ requestedTemplateIds templates := by
      rintro ⟨x, hx, hmem⟩
      exact hpre x hx hmem
    have h2P : ¬ ∃ x ∈ st.authorizeLocks, x.group_id = group_id ∧
        (x.template_id ∈ requestedTemplateIds templates ∨
         x.template_id = 0 ∧ x.system_id ∈ requestedCustomSystemIds templates) := by
      rintro ⟨x, hx, hg, hrest⟩
      obtain ⟨hnotin, hnotcustom⟩ := hlocks x hx hg
      rcases hrest with hmem | ⟨hz, hmem⟩
      · exact hnotin hmem
      · exact hnotcustom ⟨hz, hmem⟩
    simp [check_before_grant, h1P, h2P]

/-- Witness for C1: with a lock held for (group 7, template 3), a grant
request for template 3 fails with the state untouched, while the
pre-check passes for template 9; both via the main theorem at concrete
inputs. -/
theorem C1_grant_lock_mutual_exclusion_witness :
    ((grant ⟨[], [], [], "u", false, false⟩ ⟨[], [⟨7, 3, "s", "k", []⟩], [], 0, []⟩
        ⟨[]⟩ 7 [⟨"s", 3, []⟩]).1 = ⟨[], [⟨7, 3, "s", "k", []⟩], [], 0, []⟩ ∧
     (grant ⟨[], [], [], "u", false, false⟩ ⟨[], [⟨7, 3, "s", "k", []⟩], [], 0, []⟩
        ⟨[]⟩ 7 [⟨"s", 3, []⟩]).2.isSome = true) ∧
    check_before_grant ⟨[], [⟨7, 3, "s", "k", []⟩], [], 0, []⟩ 7 [⟨"s", 9, []⟩] =
      .ok () := by
  constructor
  · exact (C1_grant_lock_mutual_exclusion ⟨[], [], [], "u", false, false⟩
      ⟨[], [⟨7, 3, "s", "k", []⟩], [], 0, []⟩ ⟨[]⟩ 7 [⟨"s", 3, []⟩]).1
      ⟨⟨"s", 3, []⟩, by simp, ⟨7, 3, "s", "k", []⟩, by simp, rfl,
       Or.inl ⟨by decide, rfl⟩⟩
  · exact (C1_grant_lock_mutual_exclusion ⟨[], [], [], "u", false, false⟩
      ⟨[], [⟨7, 3, "s", "k", []⟩], [], 0, []⟩ ⟨[]⟩ 7 [⟨"s", 9, []⟩]).2
      (by simp) (by decide)

/-- Claim C2: any pre-check or per-template validation failure makes the
grant return the error with the stored state — lock rows and task
records included — exactly as it was; when every validation passes and
the commit succeeds, all lock rows of the batch (each carrying the one
batch uuid as its key) are committed together with the single task
record, and the task is dispatched; if either write inside the commit
transaction fails, neither the locks nor the task are committed. -/
theorem C2_grant_transactional_commit (env : GrantEnv) (st : GrantState)
    (role : RoleScope) (group_id : Nat) (templates : List GroupTemplateGrantBean) :
    (∀ e, check_before_grant st group_id templates = .error e →
      grant env st role group_id templates = (st, some e)) ∧
    (∀ e, check_before_grant st group_id templates = .ok () →
      gen_grant_locks env role (groupSubject group_id) env.uuid templates = .error e →
      grant env st role group_id templates = (st, some e)) ∧
    (∀ locks, check_before_grant st group_id templates = .ok () →
      gen_grant_locks env role (groupSubject group_id) env.uuid templates = .ok locks →
      env.bulkCreateFails = false → env.taskCreateFails = false →
      grant env st role group_id templates =
        ({ st with
           authorizeLocks := st.authorizeLocks ++ locks,
           tasks := st.tasks ++ [⟨st.nextTaskId, "group_authorization",
             groupSubject group_id, env.uuid⟩],
           nextTaskId := st.nextTaskId + 1,
           dispatched := st.dispatched ++ [st.nextTaskId] }, none) ∧
      ∀ l ∈ locks, l.key = env.uuid) ∧
    (∀ locks, check_before_grant st group_id templates = .ok () →
      gen_grant_locks env role (groupSubject group_id) env.uuid templates = .ok locks →
      (env.bulkCreateFails = true ∨ env.taskCreateFails = true) →
      (grant env st role group_id templates).1 = st ∧
      (grant env st role group_id templates).2.isSome = true) := by
  refine ⟨?_, ?_, ?_, ?_⟩
  · intro e he
    simp [grant, he]
  · intro e hc hg
    simp [grant, hc, hg]
  · intro locks hc hg hb ht
    refine ⟨?_, gen_grant_locks_key env role (groupSubject group_id) env.uuid
      templates locks hg⟩
    simp [grant, hc, hg, grant_commit, hb, ht]
  · intro locks hc hg hor
    rcases hor with hb | ht
    · simp [grant, hc, hg, grant_commit, hb]
    · rcases hb : env.bulkCreateFails with _ | _
      · simp [grant, hc, hg, grant_commit, hb, ht]
      · simp [grant, hc, hg, grant_commit, hb]

/-- Witness for C2: a concrete one-template custom grant commits its
lock row together with the single task record and dispatches the task,
via the main theorem at a concrete input. -/
theorem C2_grant_transactional_commit_witness :
    grant ⟨[], [], [], "u", false, false⟩ ⟨[], [], [], 5, []⟩ ⟨[]⟩ 7 [⟨"s", 0, []⟩] =
      (⟨[], [⟨7, 0, "s", "u", []⟩], [⟨5, "group_authorization", groupSubject 7, "u"⟩],
        6, [5]⟩, none) :=
  ((C2_grant_transactional_commit ⟨[], [], [], "u", false, false⟩
      ⟨[], [], [], 5, []⟩ ⟨[]⟩ 7 [⟨"s", 0, []⟩]).2.2.1 [⟨7, 0, "s", "u", []⟩]
    (by rfl) (by rfl) rfl rfl).1.trans (by rfl)

/-- Claim C3: within one `alter` call the committed writes are the
mirror create, then the mirror update, then the mirror delete (each
skipped when its set is empty), followed by the single backend
`alter_policies` call carrying the same three sets; the final mirror is
the functional composition of the three writes in that order; and when
the backend call raises, the whole transaction rolls back, committing no
event and leaving the mirror exactly as it was. -/
theorem C3_alter_transaction_order_and_rollback (env : AlterEnv) (st : MirrorState)
    (system_id : String) (subject : Subject) (c u : List PolicyBean) (d : List Nat) :
    (∀ msg, env.backendResult = .error msg →
      (c.isEmpty && u.isEmpty && d.isEmpty) = false →
      alter env st system_id subject c u d = (st, [], some (.remote msg))) ∧
    (env.backendResult = .ok () →
      alter env st system_id subject c u d =
        (let st3 := delete_db_policies system_id subject d
            (update_db_policies system_id subject u
              (create_db_policies system_id subject c st))
         ((if c.isEmpty then st3 else sync_db_policy_id env system_id subject st3),
          (if c.isEmpty && u.isEmpty && d.isEmpty then ([] : List AlterEvent) else
            (if c.isEmpty then [] else [.dbCreate c.length]) ++
            (if u.isEmpty then [] else [.dbUpdate u.length]) ++
            (if d.isEmpty then [] else [.dbDelete d.length]) ++
            [.backendAlter c u d] ++
            (if c.isEmpty then [] else [.syncPolicyId])),
          none))) :=
  ⟨fun msg hb hne => alter_backend_error env st system_id subject c u d msg hb hne,
   fun hb => alter_success_eq env st system_id subject c u d hb⟩

/-- Witness for C3: at concrete inputs, a backend failure leaves the
one-row mirror untouched, and a successful create of action `edit`
commits the insert, the single backend call and the reconciliation in
order; both via the main theorem. -/
theorem C3_alter_transaction_order_and_rollback_witness :
    alter ⟨.error "down", []⟩ ⟨3, [⟨1, "s", "group", "7", "view", 9, []⟩]⟩ "s"
        ⟨"group", "7"⟩ [⟨"edit", [], 0, 0⟩] [] [] =
      (⟨3, [⟨1, "s", "group", "7", "view", 9, []⟩]⟩, [], some (.remote "down")) ∧
    alter ⟨.ok (), []⟩ ⟨3, [⟨1, "s", "group", "7", "view", 9, []⟩]⟩ "s"
        ⟨"group", "7"⟩ [⟨"edit", [], 0, 0⟩] [] [] =
      (⟨4, [⟨1, "s", "group", "7", "view", 9, []⟩, ⟨3, "s", "group", "7", "edit", 0, []⟩]⟩,
       [.dbCreate 1, .backendAlter [⟨"edit", [], 0, 0⟩] [] [], .syncPolicyId], none) := by
  constructor
  · exact (C3_alter_transaction_order_and_rollback ⟨.error "down", []⟩
      ⟨3, [⟨1, "s", "group", "7", "view", 9, []⟩]⟩ "s" ⟨"group", "7"⟩
      [⟨"edit", [], 0, 0⟩] [] []).1 "down" rfl rfl
  · exact ((C3_alter_transaction_order_and_rollback ⟨.ok (), []⟩
      ⟨3, [⟨1, "s", "group", "7", "view", 9, []⟩]⟩ "s" ⟨"group", "7"⟩
      [⟨"edit", [], 0, 0⟩] [] []).2 rfl).trans (by rfl)

/-- Claim C6: after an `alter` whose create set is non-empty completes
successfully, the reconciliation step runs (its event is committed) and
every mirror row of the (system, subject) holding the placeholder
policy_id 0 whose action has a matching backend policy is patched to the
backend-assigned id, others staying untouched; when the create set is
empty the reconciliation step is never invoked. -/
theorem C6_sync_db_policy_id_after_create (env : AlterEnv) (st : MirrorState)
    (system_id : String) (subject : Subject) (c u : List PolicyBean) (d : List Nat) :
    (env.backendResult = .ok () → c ≠ [] →
      AlterEvent.syncPolicyId ∈ (alter env st system_id subject c u d).2.1 ∧
      (alter env st system_id subject c u d).1.rows =
        (delete_db_policies system_id subject d
          (update_db_policies system_id subject u
            (create_db_policies system_id subject c st))).rows.map (fun r =>
          if r.system_id == system_id && r.subject_type == subject.type &&
             r.subject_id == subject.id && r.policy_id == 0 then
            match List.lookup r.action_id env.backendPolicies with
            | some pid => { r with policy_id := pid }
            | none => r
          else r)) ∧
    (c = [] → AlterEvent.syncPolicyId ∉ (alter env st system_id subject c u d).2.1) := by
  constructor
  · intro hb hc
    have hce : c.isEmpty = false := by
      cases c
      · exact absurd rfl hc
      · rfl
    rw [alter_success_eq env st system_id subject c u d hb]
    constructor
    · simp [hce]
    · simp only [hce]
      exact sync_db_policy_id_rows env system_id subject _
  · intro hc
    subst hc
    rcases hb : env.backendResult with msg | u'
    · rcases hall : (List.isEmpty (α := PolicyBean) [] && u.isEmpty && d.isEmpty)
          with _ | _
      · rw [alter_backend_error env st system_id subject [] u d msg hb hall]
        simp
      · rw [alter_all_empty env st system_id subject [] u d hall]
        simp
    · cases u'
      rw [alter_success_eq env st system_id subject [] u d hb]
      by_cases hu : u.isEmpty = true <;> by_cases hd : d.isEmpty = true <;>
        simp [hu, hd]

/-- Witness for C6: a successful create of `view` with the backend
reporting policy id 31 commits the reconciliation event and patches the
placeholder row to id 31, while an update-only call never invokes the
reconciliation; both via the main theorem at concrete inputs. -/
theorem C6_sync_db_policy_id_after_create_witness :
    (AlterEvent.syncPolicyId ∈
      (alter ⟨.ok (), [("view", 31)]⟩ ⟨0, []⟩ "s" ⟨"group", "7"⟩
        [⟨"view", [], 0, 0⟩] [] []).2.1 ∧
     (alter ⟨.ok (), [("view", 31)]⟩ ⟨0, []⟩ "s" ⟨"group", "7"⟩
        [⟨"view", [], 0, 0⟩] [] []).1.rows = [⟨0, "s", "group", "7", "view", 31, []⟩]) ∧
    AlterEvent.syncPolicyId ∉
      (alter ⟨.ok (), [("view", 31)]⟩ ⟨0, []⟩ "s" ⟨"group", "7"⟩
        [] [⟨"view", [], 0, 31⟩] []).2.1 := by
  constructor
  · have h := (C6_sync_db_policy_id_after_create ⟨.ok (), [("view", 31)]⟩ ⟨0, []⟩
      "s" ⟨"group", "7"⟩ [⟨"view", [], 0, 0⟩] [] []).1 rfl (by decide)
    exact ⟨h.1, h.2.trans (by rfl)⟩
  · exact (C6_sync_db_policy_id_after_create ⟨.ok (), [("view", 31)]⟩ ⟨0, []⟩
      "s" ⟨"group", "7"⟩ [] [⟨"view", [], 0, 31⟩] []).2 rfl

/-- Claim C5: the resource-name check of a group policy update runs on
the diffed, added-only set — the requested policies minus the subject's
already-authorized ones (the custom policies when template id is 0, the
template's authorized actions otherwise) — and never on the full
requested set: a request entirely contained in the already-authorized
collection passes for every canonical-name environment, so
already-granted instances are not name-validated again; the application
path likewise name-fails exactly as the name check on its diff does. -/
theorem C5_resource_name_check_on_added_only (canon : CanonNames) (db : PolicyDb)
    (templateAuthDb : List TemplateAuthorizedRow) (system_id : String)
    (policies : List PolicyBean) (subject : Subject) :
    (check_update_policies_resource_name canon db templateAuthDb system_id 0
        policies subject =
      (PolicyBeanList.sub ⟨system_id, policies⟩
        ⟨system_id, list_by_subject db system_id subject⟩).check_resource_name canon) ∧
    (∀ template_id row, template_id ≠ 0 →
      get_by_subject_template templateAuthDb subject template_id = some row →
      check_update_policies_resource_name canon db templateAuthDb system_id
          template_id policies subject =
        (PolicyBeanList.sub ⟨system_id, policies⟩
          ⟨system_id, row.actions⟩).check_resource_name canon) ∧
    ((∀ p ∈ policies, ∃ op,
        PolicyBeanList.get ⟨system_id, list_by_subject db system_id subject⟩
          p.action_id = some op ∧ containedIn p op = true) →
      check_update_policies_resource_name canon db templateAuthDb system_id 0
        policies subject = .ok ()) ∧
    (∀ now applicant (pl : PolicyBeanList) e,
      (pl.sub (new_policy_list_by_subject db system_id
        (userSubject applicant))).check_resource_name canon = .error e →
      gen_need_apply_policy_list canon db now applicant system_id pl = .error e) ∧
    (∀ now applicant (pl : PolicyBeanList),
      (pl.sub (new_policy_list_by_subject db system_id
        (userSubject applicant))).check_resource_name canon = .ok () →
      gen_need_apply_policy_list canon db now applicant system_id pl =
        .error .noChange ∨
      ∃ res, gen_need_apply_policy_list canon db now applicant system_id pl =
        .ok res) := by
  refine ⟨rfl, ?_, ?_, ?_, ?_⟩
  · intro template_id row hne hget
    have hz : (template_id == 0) = false := by simp [hne]
    simp [check_update_policies_resource_name, hz, hget]
  · intro h
    have h1 : check_update_policies_resource_name canon db templateAuthDb system_id 0
        policies subject =
        (PolicyBeanList.sub ⟨system_id, policies⟩
          ⟨system_id, list_by_subject db system_id subject⟩).check_resource_name
          canon := rfl
    rw [h1]
    have hnil := sub_contained_nil system_id policies
      (list_by_subject db system_id subject) h
    simp [PolicyBeanList.check_resource_name, hnil]
  · intro now applicant pl e he
    simp [gen_need_apply_policy_list, he]
  · intro now applicant pl h
    simp only [gen_need_apply_policy_list, h]
    split
    · exact Or.inl rfl
    · exact Or.inr ⟨_, rfl⟩

/-- Witness for C5: requesting `view` over the already-granted instance
X whose carried name is stale passes the update name check (the diff is
empty), via the main theorem, although the name check on the full
requested set would reject that very request. -/
theorem C5_resource_name_check_on_added_only_witness :
    check_update_policies_resource_name canonX dbViewX [] "s" 0 [reqViewX]
      (groupSubject 7) = .ok () ∧
    PolicyBeanList.check_resource_name canonX ⟨"s", [reqViewX]⟩ =
      .error (.nameMismatch "X") := by
  constructor
  · refine (C5_resource_name_check_on_added_only canonX dbViewX [] "s" [reqViewX]
      (groupSubject 7)).2.2.1 ?_
    intro q hq
    rw [List.mem_singleton] at hq
    subst hq
    exact ⟨oldViewX, by decide, by decide⟩
  · rfl

/-- Claim C4 (counter-evaluation): `check_grant_policies_without_update`
shadows its `policies` parameter with the subject's stored policies and
compares those stored policies against themselves, so a grant whose only
submitted action (`view`) is new for the subject is still rejected as
soon as any stored policy (here one for `edit`) exists — while the
sibling add-only check `_valid_grant_actions_not_exists` accepts the
same request, as the claim (and the function's own docstring)
describe. -/
theorem C4_check_grant_without_update_shadowing_bug :
    check_grant_policies_without_update
        [("sys", groupSubject 1, ⟨"edit", [], 0, 1⟩)] 1 "sys" [⟨"view", [], 0, 0⟩] =
      .error (.actionExists "sys" "edit") ∧
    valid_grant_actions_not_exists
        [("sys", groupSubject 1, ⟨"edit", [], 0, 1⟩)] (groupSubject 1) "sys" ["view"] =
      .ok () := by
  constructor <;> rfl

/-- Claim C8: the per-application instance-count check succeeds exactly
when every related resource type of every policy has `count_instance`
at most the ceiling (so a count equal to the ceiling passes); every
failure is a validation error naming the offending action and resource
type for an over-the-ceiling count; and the configured default ceiling
`APPLY_POLICY_ADD_INSTANCES_LIMIT` is 20. -/
theorem C8_apply_policy_instance_count_limit (limit : Nat) (pl : PolicyBeanList) :
    (check_application_policy_instance_count_limit limit pl = .ok () ↔
      ∀ p ∈ pl.policies, ∀ rrt ∈ p.related_resource_types,
        rrt.count_instance ≤ limit) ∧
    (∀ e, check_application_policy_instance_count_limit limit pl = .error e →
      ∃ p ∈ pl.policies, ∃ rrt ∈ p.related_resource_types,
        e = .instanceLimitExceeded p.action_id rrt.type limit ∧
        limit < rrt.count_instance) ∧
    APPLY_POLICY_ADD_INSTANCES_LIMIT = 20 := by
  refine ⟨?_, ?_, rfl⟩
  · rcases h : pl.policies.findSome? (fun p =>
        (p.related_resource_types.find? (fun rrt => limit < rrt.count_instance)).map
          (fun rrt => (p.action_id, rrt.type))) with _ | x
    · constructor
      · intro _ p hp rrt hrrt
        rw [List.findSome?_eq_none_iff] at h
        have hp1 := h p hp
        rw [Option.map_eq_none'] at hp1
        rw [List.find?_eq_none] at hp1
        simpa using hp1 rrt hrrt
      · intro _
        simp [check_application_policy_instance_count_limit, h]
    · constructor
      · intro hok
        exfalso
        simp [check_application_policy_instance_count_limit, h] at hok
      · intro hall
        exfalso
        obtain ⟨p, hp, hfp⟩ := List.exists_of_findSome?_eq_some h
        rw [Option.map_eq_some'] at hfp
        obtain ⟨rrt, hfind, _⟩ := hfp
        have h1 := List.find?_some hfind
        have h2 := List.mem_of_find?_eq_some hfind
        have := hall p hp rrt h2
        simp only [decide_eq_true_eq] at h1
        omega
  · intro e he
    rcases h : pl.policies.findSome? (fun p =>
        (p.related_resource_types.find? (fun rrt => limit < rrt.count_instance)).map
          (fun rrt => (p.action_id, rrt.type))) with _ | x
    · exfalso
      simp [check_application_policy_instance_count_limit, h] at he
    · obtain ⟨p, hp, hfp⟩ := List.exists_of_findSome?_eq_some h
      rw [Option.map_eq_some'] at hfp
      obtain ⟨rrt, hfind, hxy⟩ := hfp
      have h1 := List.find?_some hfind
      have h2 := List.mem_of_find?_eq_some hfind
      simp only [decide_eq_true_eq] at h1
      refine ⟨p, hp, rrt, h2, ?_, h1⟩
      simp only [check_application_policy_instance_count_limit, h] at he
      rcases x with ⟨aid, ty⟩
      cases hxy
      simpa using he.symm

/-- Witness for C8: a policy holding exactly 20 concrete instances of a
resource type passes the default ceiling, via the main theorem at a
concrete input. -/
theorem C8_apply_policy_instance_count_limit_witness :
    check_application_policy_instance_count_limit 20
      ⟨"sys", [⟨"view",
        [⟨"sys", "host",
          [⟨"c1", (List.range 20).map (fun i =>
            ⟨"host", [⟨"sys", "host", toString i, "h"⟩]⟩), []⟩]⟩], 0, 0⟩]⟩ =
      .ok () :=
  (C8_apply_policy_instance_count_limit 20 _).1.mpr (by decide)

/-- Claim C9: the id-name cache layer never propagates a redis failure:
on a redis error `set` returns the cache state unchanged and `get` maps
every requested id to `none` (a cache miss for each id), while without a
failure `get` returns the stored lookups. -/
theorem C9_cache_failure_degrades_to_miss (system_id resource_type_id : String)
    (m : List (String × String)) (ids : List String) (st : CacheState) :
    ResourceIDNameCache.set true system_id resource_type_id m st = st ∧
    ResourceIDNameCache.get true system_id resource_type_id ids st =
      ids.map (fun i => (i, none)) ∧
    ResourceIDNameCache.get false system_id resource_type_id ids st =
      ids.map (fun i =>
        (i, List.lookup (cacheKey system_id resource_type_id i) st.entries)) := by
  refine ⟨rfl, ?_, ?_⟩
  · show ids.zip (ids.map (fun _ => none)) = ids.map (fun i => (i, none))
    induction ids with
    | nil => rfl
    | cons a l ih => simpa using ih
  · show ids.zip ((ids.map (cacheKey system_id resource_type_id)).map
        (fun k => List.lookup k st.entries)) = _
    induction ids with
    | nil => rfl
    | cons a l ih => simpa using ih

/-- Claim C10: `GroupBiz.delete` refuses with a validation error and
leaves every table untouched whenever a `GroupAuthorizeLock` row exists
for the group; with no such lock it deletes, inside one transaction, the
role relation, the template authorizations, the custom policies, the
group attributes and the group row (and a failure of any of those writes
commits nothing). -/
theorem C10_group_delete (deleteFails : Bool) (st : GroupDeleteState) (group_id : Nat) :
    ((∃ l ∈ st.authorizeLocks, l.group_id = group_id) →
      GroupBiz.delete deleteFails st group_id = (st, some .groupAuthorizing)) ∧
    ((∀ l ∈ st.authorizeLocks, l.group_id ≠ group_id) → deleteFails = false →
      GroupBiz.delete deleteFails st group_id =
        ({ st with
           roleRelations := st.roleRelations.filter (fun rr => rr.2 != group_id),
           templateAuths := st.templateAuths.filter
             (fun t => t.subject != groupSubject group_id),
           policies := st.policies.filter (fun p =>
             !(p.subject_type == (groupSubject group_id).type &&
               p.subject_id == (groupSubject group_id).id)),
           groupAttributes := st.groupAttributes.filter (fun a => a.1 != group_id),
           groups := st.groups.filter (fun g => g.id != group_id) }, none)) ∧
    ((∀ l ∈ st.authorizeLocks, l.group_id ≠ group_id) → deleteFails = true →
      GroupBiz.delete deleteFails st group_id = (st, some (.storage "delete"))) := by
  rcases h : st.authorizeLocks.any (fun l => l.group_id == group_id) with _ | _
  · refine ⟨?_, ?_, ?_⟩
    · rintro ⟨l, hl, hgid⟩
      exfalso
      rw [List.any_eq_false] at h
      exact absurd (by simpa using hgid) (by simpa using h l hl)
    · intro _ hf
      subst hf
      simp [GroupBiz.delete, h]
    · intro _ hf
      subst hf
      simp [GroupBiz.delete, h]
  · refine ⟨?_, ?_, ?_⟩
    · intro _
      simp [GroupBiz.delete, h]
    · intro hnone _
      exfalso
      rw [List.any_eq_true] at h
      obtain ⟨l, hl, hbeq⟩ := h
      exact hnone l hl (by simpa using hbeq)
    · intro hnone _
      exfalso
      rw [List.any_eq_true] at h
      obtain ⟨l, hl, hbeq⟩ := h
      exact hnone l hl (by simpa using hbeq)

/-- Witness for C10: with a lock held for group 7, deleting group 7 is
refused with the tables untouched, while deleting group 8 (no lock)
removes its role relation, policies, attributes and group row; both via
the main theorem at concrete inputs. -/
theorem C10_group_delete_witness :
    GroupBiz.delete false
      ⟨[⟨7, 3, "s", "k", []⟩], [(1, 7), (1, 8)], [], [], [], [⟨7, "g7"⟩, ⟨8, "g8"⟩]⟩ 7 =
      (⟨[⟨7, 3, "s", "k", []⟩], [(1, 7), (1, 8)], [], [], [], [⟨7, "g7"⟩, ⟨8, "g8"⟩]⟩,
       some .groupAuthorizing) ∧
    GroupBiz.delete false
      ⟨[⟨7, 3, "s", "k", []⟩], [(1, 7), (1, 8)], [], [], [], [⟨7, "g7"⟩, ⟨8, "g8"⟩]⟩ 8 =
      (⟨[⟨7, 3, "s", "k", []⟩], [(1, 7)], [], [], [], [⟨7, "g7"⟩]⟩, none) := by
  constructor
  · exact (C10_group_delete false _ 7).1 ⟨⟨7, 3, "s", "k", []⟩, by simp, rfl⟩
  · exact ((C10_group_delete false _ 8).2.1 (by decide) rfl).trans (by decide)

end BkIam
